import Mathlib

/-!
Shallow embedding of the `randomjson` schema interpreter
(`src/randomjson/{ast,eval,preprocessor,function}.py`).

Python's dynamic JSON-like values are embedded as the inductive `Val`.
Python `float` objects are carried as rationals: no claim performs float
arithmetic, only tagging and (in)equality of simple literals matter here.
Python `bool` is a subclass of `int`; we keep a separate `bool` constructor
and embed each `isinstance(..., int)` test site explicitly (it accepts
booleans, as in Python).
-/

inductive Val where
  | null
  | bool (b : Bool)
  | int (n : Int)
  | float (q : Rat)
  | str (s : String)
  | list (xs : List Val)
  | map (kvs : List (String × Val))
deriving Repr

/-- Embeds `dict.get(key)` (returns `None`, i.e. `null`, when absent).
Python dicts have unique keys; lookup takes the first matching entry. -/
def pyGet (kvs : List (String × Val)) (key : String) : Val :=
  match kvs.find? (fun kv => kv.1 == key) with
  | some kv => kv.2
  | none => .null

/-- Embeds `dict[key]`: `none` models the `KeyError` path. -/
def pyGetStrict (kvs : List (String × Val)) (key : String) : Option Val :=
  (kvs.find? (fun kv => kv.1 == key)).map Prod.snd

/-- Embeds `key in dict`. -/
def pyHasKey (kvs : List (String × Val)) (key : String) : Bool :=
  kvs.any (fun kv => kv.1 == key)

/-- Python truthiness (`bool(x)`): `None`, `False`, `0`, `0.0`, `""`, `[]`,
`{}` are falsy, everything else truthy (`eval.py` uses it in `__eval_cond`). -/
def truthy : Val → Bool
  | .null => false
  | .bool b => b
  | .int n => n != 0
  | .float q => q != 0
  | .str s => s != ""
  | .list xs => !xs.isEmpty
  | .map kvs => !kvs.isEmpty

/-- Embeds `isinstance(x, int)` from `Evaluator.__eval_repeat`: in Python this
is `True` for `bool` as well, since `bool` subclasses `int`. -/
def isinstanceInt : Val → Bool
  | .int _ => true
  | .bool _ => true
  | _ => false

/-- The `int` value of a Python object known to satisfy `isinstance(x, int)`:
`True` is `1` and `False` is `0`. -/
def pyIntValue : Val → Int
  | .int n => n
  | .bool b => if b then 1 else 0
  | _ => 0

/-! ### Vanisher (`eval.py`, class `Vanisher`) -/

/-- `Vanisher.mark()`: the Absent marker `{"type": "randomjson.control.vanish"}`. -/
def Vanisher.mark : Val := .map [("type", .str "randomjson.control.vanish")]

/-- Embeds the Python comparison `x == m` where `m = Vanisher.mark()`:
dict equality against a one-entry dict holds exactly for a map whose sole
entry is `("type", "randomjson.control.vanish")`. Non-dicts never equal it. -/
def isMark : Val → Bool
  | .map [(k, .str s)] => k == "type" && s == "randomjson.control.vanish"
  | _ => false

mutual
/-- `Vanisher.run`: inside a list drop elements equal to the marker, inside a
map drop entries whose value equals it, then recurse into the kept children;
scalars pass through unchanged. -/
def Vanisher.run : Val → Val
  | .list xs => .list (Vanisher.runList xs)
  | .map kvs => .map (Vanisher.runEntries kvs)
  | v => v
termination_by v => sizeOf v

/-- The list comprehension `[cls.run(x) for x in obj if x != m]`. -/
def Vanisher.runList : List Val → List Val
  | [] => []
  | x :: xs =>
    if isMark x then Vanisher.runList xs
    else Vanisher.run x :: Vanisher.runList xs
termination_by xs => sizeOf xs

/-- The dict comprehension `{k: cls.run(v) for k, v in obj.items() if v != m}`. -/
def Vanisher.runEntries : List (String × Val) → List (String × Val)
  | [] => []
  | (k, v) :: rest =>
    if isMark v then Vanisher.runEntries rest
    else (k, Vanisher.run v) :: Vanisher.runEntries rest
termination_by kvs => sizeOf kvs
end

mutual
/-- `v` contains no marker in a droppable position: no list element and no map
value equals the marker, recursively. Used to state when a single `Vanisher`
pass is already a fixed point. -/
def noMark : Val → Bool
  | .list xs => noMarkList xs
  | .map kvs => noMarkEntries kvs
  | _ => true
termination_by v => sizeOf v

def noMarkList : List Val → Bool
  | [] => true
  | x :: xs => !isMark x && noMark x && noMarkList xs
termination_by xs => sizeOf xs

def noMarkEntries : List (String × Val) → Bool
  | [] => true
  | (_, v) :: rest => !isMark v && noMark v && noMarkEntries rest
termination_by kvs => sizeOf kvs
end

/-! ### AST (`ast.py`) -/

mutual
/-- The closed 5-variant node union of `ast.py` (classes `Const`, `Variable`,
`Function`, `Repeat`, `Cond`). -/
inductive Node where
  | Const (value : Val)
  | Variable (name : String)
  | Function (name : String) (args : List Node) (kwargs : List (String × Node))
  | Repeat (node : TopLevelUnion) (amount : Node)
  | Cond (body : List (Node × TopLevelUnion))

/-- `TopLevelUnion = Node | list[Node] | dict[str, Node]` (`ast.py` line 115). -/
inductive TopLevelUnion where
  | node (n : Node)
  | list (xs : List Node)
  | map (kvs : List (String × Node))
end

/-! ### Environment (`eval.py`) -/

/-- `VariableTable`: name → value, overwrite-only.  `get` embeds
`dict.get` (missing key gives `None`, i.e. `null`). -/
structure VariableTable where
  table : List (String × Val)

def VariableTable.get (t : VariableTable) (key : String) : Val :=
  pyGet t.table key

def VariableTable.has (t : VariableTable) (key : String) : Bool :=
  pyHasKey t.table key

/-- A callable in the function table: positional args and keyword args to a
result or a call failure (Python callables are opaque to the evaluator). -/
abbrev FuncImpl : Type := List Val → List (String × Val) → Except String Val

/-- `FunctionTable.get` embeds `dict.get` (missing gives `None`). -/
structure FunctionTable where
  table : List (String × FuncImpl)

def FunctionTable.get (t : FunctionTable) (key : String) : Option FuncImpl :=
  (t.table.find? (fun kv => kv.1 == key)).map Prod.snd

structure Environment where
  vars : VariableTable
  funcs : FunctionTable

/-! ### Evaluator (`eval.py`, class `Evaluator`)

Errors mirror the `raise ... from e` wrapping structure of the source
(message text elided, wrapping structure kept): the `@evaluator` decorator
wraps every failure of `eval` in `EvalError`, and the outer `try` of `eval`
adds one `str(node)` layer. -/

inductive EvalErr where
  | varNotFound (name : String)
  | funcNotFound (name : String)
  | argFailed (name : String) (i : Nat) (cause : EvalErr)
  | kwargFailed (name : String) (key : String) (cause : EvalErr)
  | callFailed (name : String) (msg : String)
  | repeatAmount (cause : EvalErr)
  | repeatNotInt
  | repeatIter (i : Nat) (cause : EvalErr)
  | condArm (i : Nat) (cause : EvalErr)
  | nodeWrap (cause : EvalErr)
  | evalError (cause : EvalErr)

/-- One wrapping step of a failure escaping `Evaluator.eval`: the inner
`try`/`except` re-raises with `str(node)` attached, then the `@evaluator`
decorator converts to `EvalError`. -/
def wrapEval : Except EvalErr Val → Except EvalErr Val
  | .ok v => .ok v
  | .error e => .error (.evalError (.nodeWrap e))

mutual
/-- `Evaluator.eval` (via `__eval_const` / `__eval_variable` /
`__eval_function` / `__eval_repeat` / `__eval_cond`). -/
def eval (env : Environment) : Node → Except EvalErr Val
  | .Const v => wrapEval (.ok v)
  | .Variable name =>
    wrapEval (if env.vars.has name then .ok (env.vars.get name)
              else .error (.varNotFound name))
  | .Function name args kwargs =>
    wrapEval (match env.funcs.get name with
      | none => .error (.funcNotFound name)
      | some f =>
        match evalArgs env name 0 args with
        | .error e => .error e
        | .ok vs =>
          match evalKwargs env name kwargs with
          | .error e => .error e
          | .ok ks =>
            match f vs ks with
            | .error msg => .error (.callFailed name msg)
            | .ok v => .ok v)
  | .Repeat node amount =>
    wrapEval (match eval env amount with
      | .error e => .error (.repeatAmount e)
      | .ok count =>
        if isinstanceInt count then evalRepeat env node (pyIntValue count).toNat 0
        else .error .repeatNotInt)
  | .Cond body => wrapEval (evalCond env 0 body)
termination_by n => (sizeOf n, 0)

/-- Positional-argument loop of `__eval_function` (left to right, each failure
wrapped with its index). -/
def evalArgs (env : Environment) (name : String) (i : Nat) :
    List Node → Except EvalErr (List Val)
  | [] => .ok []
  | x :: xs =>
    match eval env x with
    | .error e => .error (.argFailed name i e)
    | .ok v =>
      match evalArgs env name (i + 1) xs with
      | .error e => .error e
      | .ok vs => .ok (v :: vs)
termination_by xs => (sizeOf xs, 0)

/-- Keyword-argument loop of `__eval_function` (declaration order, each
failure wrapped with its key). -/
def evalKwargs (env : Environment) (name : String) :
    List (String × Node) → Except EvalErr (List (String × Val))
  | [] => .ok []
  | (k, v) :: xs =>
    match eval env v with
    | .error e => .error (.kwargFailed name k e)
    | .ok w =>
      match evalKwargs env name xs with
      | .error e => .error e
      | .ok ws => .ok ((k, w) :: ws)
termination_by xs => (sizeOf xs, 0)

/-- `Evaluator.__eval_top_level_union` (not wrapped by the decorator itself;
its recursive `self.eval` calls are). -/
def evalTop (env : Environment) : TopLevelUnion → Except EvalErr Val
  | .node n => eval env n
  | .list xs =>
    match evalNodes env xs with
    | .error e => .error e
    | .ok vs => .ok (.list vs)
  | .map kvs =>
    match evalEntries env kvs with
    | .error e => .error e
    | .ok ws => .ok (.map ws)
termination_by t => (sizeOf t, 0)

/-- The list comprehension `[self.eval(x) for x in node]`. -/
def evalNodes (env : Environment) : List Node → Except EvalErr (List Val)
  | [] => .ok []
  | x :: xs =>
    match eval env x with
    | .error e => .error e
    | .ok v =>
      match evalNodes env xs with
      | .error e => .error e
      | .ok vs => .ok (v :: vs)
termination_by xs => (sizeOf xs, 0)

/-- The dict comprehension `{k: self.eval(v) for k, v in node.items()}`. -/
def evalEntries (env : Environment) :
    List (String × Node) → Except EvalErr (List (String × Val))
  | [] => .ok []
  | (k, v) :: xs =>
    match eval env v with
    | .error e => .error e
    | .ok w =>
      match evalEntries env xs with
      | .error e => .error e
      | .ok ws => .ok ((k, w) :: ws)
termination_by xs => (sizeOf xs, 0)

/-- Iteration loop of `__eval_repeat`: evaluate the template `count` times in
index order (`i` counts completed iterations, for the error breadcrumb). -/
def evalRepeat (env : Environment) (node : TopLevelUnion) :
    Nat → Nat → Except EvalErr Val
  | 0, _ => .ok (.list [])
  | k + 1, i =>
    match evalTop env node with
    | .error e => .error (.repeatIter i e)
    | .ok v =>
      match evalRepeat env node k (i + 1) with
      | .error e => .error e
      | .ok (.list vs) => .ok (.list (v :: vs))
      | .ok w => .ok w
termination_by k _ => (sizeOf node, k)

/-- Arm loop of `__eval_cond`: evaluate tests in order, return the first arm
whose test is truthy; no match (including zero arms) gives the marker. -/
def evalCond (env : Environment) (i : Nat) :
    List (Node × TopLevelUnion) → Except EvalErr Val
  | [] => .ok Vanisher.mark
  | (t, b) :: rest =>
    match eval env t with
    | .error e => .error (.condArm i e)
    | .ok v =>
      if truthy v then
        match evalTop env b with
        | .error e => .error (.condArm i e)
        | .ok w => .ok w
      else evalCond env (i + 1) rest
termination_by body => (sizeOf body, 0)
end

/-! ### Validating parser (`ast.py`: `node_type`, `node_properties`, the five
`parse` methods, `Node.select`, `parse_top_level_union`)

Recursion is tied with a fuel parameter (`selectF`); `Node.select` supplies
`sizeOf obj` fuel, which every recursive descent strictly decreases past, so
the artificial `fuel` error is unreachable from `Node.select`.  The variant
parser bodies are written over an abstract child parser `sel`, exactly as the
source's `Node.select`/`parse_top_level_union` calls. -/

inductive PErr where
  | requireProperty (keys : List String)
  | invalidNodeType (want : String)
  | keyError (key : String)
  | wantStr (field : String)
  | wantList (field : String)
  | wantDict (field : String)
  | condPair (i : Nat) (cause : PErr)
  | condPairShape (i : Nat)
  | notIterable
  | fuel
  | parseErr (cause : PErr)
  | selectFailed (causes : List PErr)

/-- `node_properties`: fails when the object is not a dict, or when
`set(obj.keys()) < keys` — note the source tests *proper subset* of the
required keys, not key presence. -/
def checkProperties (keys : List String) (obj : Val) : Option PErr :=
  match obj with
  | .map kvs =>
    let objKeys := kvs.map Prod.fst
    if objKeys.all (fun k => keys.contains k) && !(keys.all (fun k => objKeys.contains k)) then
      some (.requireProperty keys)
    else none
  | _ => some (.requireProperty keys)

/-- `node_type`: fails when the object is not a dict, `obj.get("type")` is
`None` (missing key or an explicit null), or the value differs from
`type_name` (any non-string value differs). -/
def checkType (typeName : String) (obj : Val) : Option PErr :=
  match obj with
  | .map kvs =>
    match pyGet kvs "type" with
    | .null => some (.invalidNodeType typeName)
    | .str s => if s == typeName then none else some (.invalidNodeType typeName)
    | _ => some (.invalidNodeType typeName)
  | _ => some (.invalidNodeType typeName)

/-- Decorator order on each `parse`: `node_properties` runs before
`node_type` (decorators apply bottom-up). -/
def runChecks (keys : List String) (typeName : String) (obj : Val) : Option PErr :=
  match checkProperties keys obj with
  | some e => some e
  | none => checkType typeName obj

/-- `Const.parse` body (under the `@parser` wrapper, which turns any failure
into a `ParseError`): `Const(value=obj["value"])`. -/
def parseConstCore (obj : Val) : Except PErr Node :=
  Except.mapError .parseErr <|
    match runChecks ["value"] "const" obj with
    | some e => .error e
    | none =>
      match obj with
      | .map kvs =>
        match pyGetStrict kvs "value" with
        | some v => .ok (.Const v)
        | none => .error (.keyError "value")
      | _ => .error (.keyError "value")

/-- `Variable.parse` body: `obj["name"]` must be a string. -/
def parseVariableCore (obj : Val) : Except PErr Node :=
  Except.mapError .parseErr <|
    match runChecks ["name"] "variable" obj with
    | some e => .error e
    | none =>
      match obj with
      | .map kvs =>
        match pyGetStrict kvs "name" with
        | some (.str s) => .ok (.Variable s)
        | some _ => .error (.wantStr "name")
        | none => .error (.keyError "name")
      | _ => .error (.keyError "name")

/-- `Function.parse` body: `name` required string, `args` defaults to `[]`
(must be a list), `kwargs` defaults to `{}` (must be a dict; its keys are
strings by construction of `Val.map`); children parsed via `sel`. -/
def parseFunctionCore (sel : Val → Except PErr Node) (obj : Val) : Except PErr Node :=
  Except.mapError .parseErr <|
    match runChecks ["name"] "function" obj with
    | some e => .error e
    | none =>
      match obj with
      | .map kvs =>
        match pyGetStrict kvs "name" with
        | none => .error (.keyError "name")
        | some name =>
          let args := match pyGetStrict kvs "args" with
            | some v => v
            | none => .list []
          let kwargs := match pyGetStrict kvs "kwargs" with
            | some v => v
            | none => .map []
          match name with
          | .str nm =>
            match args with
            | .list argList =>
              match kwargs with
              | .map kwList =>
                match argList.mapM sel with
                | .error e => .error e
                | .ok argNodes =>
                  match kwList.mapM (fun kv => (sel kv.2).map (fun n => (kv.1, n))) with
                  | .error e => .error e
                  | .ok kwNodes => .ok (.Function nm argNodes kwNodes)
              | _ => .error (.wantDict "kwargs")
            | _ => .error (.wantList "args")
          | _ => .error (.wantStr "name")
      | _ => .error (.keyError "name")

/-- `parse_top_level_union`: a list maps `sel` over elements; otherwise try
`sel` directly, and on failure map `sel` over the values of the object taken
as a dict (a non-dict then raises — `notIterable`, the `AttributeError`). -/
def ptluCore (sel : Val → Except PErr Node) (obj : Val) : Except PErr TopLevelUnion :=
  match obj with
  | .list xs => (xs.mapM sel).map .list
  | .map kvs =>
    match sel obj with
    | .ok n => .ok (.node n)
    | .error _ => (kvs.mapM (fun kv => (sel kv.2).map (fun n => (kv.1, n)))).map .map
  | _ =>
    match sel obj with
    | .ok n => .ok (.node n)
    | .error _ => .error .notIterable

/-- `Repeat.parse` body: `node` and `amount` required;
`Repeat(node=parse_top_level_union(node), amount=Node.select(amount))`. -/
def parseRepeatCore (sel : Val → Except PErr Node)
    (ptlu : Val → Except PErr TopLevelUnion) (obj : Val) : Except PErr Node :=
  Except.mapError .parseErr <|
    match runChecks ["node", "amount"] "repeat" obj with
    | some e => .error e
    | none =>
      match obj with
      | .map kvs =>
        match pyGetStrict kvs "node" with
        | none => .error (.keyError "node")
        | some nodeRaw =>
          match pyGetStrict kvs "amount" with
          | none => .error (.keyError "amount")
          | some amountRaw =>
            match ptlu nodeRaw with
            | .error e => .error e
            | .ok tl =>
              match sel amountRaw with
              | .error e => .error e
              | .ok amt => .ok (.Repeat tl amt)
      | _ => .error (.keyError "node")

/-- Arm loop of `Cond.parse`: each `body[i]` must be a 2-element pair whose
test parses with `sel` and whose branch parses with `ptlu`; failures carry the
index.  (In Python any other length-2 sequence, e.g. a 2-character string,
would be unpacked and then fail inside `select`; every non-2-list shape is an
error there too, folded into `condPairShape` here.) -/
def parseCondArms (sel : Val → Except PErr Node)
    (ptlu : Val → Except PErr TopLevelUnion) (i : Nat) :
    List Val → Except PErr (List (Node × TopLevelUnion))
  | [] => .ok []
  | b :: rest =>
    match b with
    | .list [t, e] =>
      match sel t with
      | .error err => .error (.condPair i err)
      | .ok tn =>
        match ptlu e with
        | .error err => .error (.condPair i err)
        | .ok en =>
          match parseCondArms sel ptlu (i + 1) rest with
          | .error err => .error err
          | .ok arms => .ok ((tn, en) :: arms)
    | _ => .error (.condPairShape i)

/-- `Cond.parse` body: `body` required and must be a list of pairs. -/
def parseCondCore (sel : Val → Except PErr Node)
    (ptlu : Val → Except PErr TopLevelUnion) (obj : Val) : Except PErr Node :=
  Except.mapError .parseErr <|
    match runChecks ["body"] "cond" obj with
    | some e => .error e
    | none =>
      match obj with
      | .map kvs =>
        match pyGetStrict kvs "body" with
        | none => .error (.keyError "body")
        | some bodyRaw =>
          match bodyRaw with
          | .list arms =>
            match parseCondArms sel ptlu 0 arms with
            | .error e => .error e
            | .ok parsed => .ok (.Cond parsed)
          | _ => .error (.wantList "body")
      | _ => .error (.keyError "body")

/-- `Node.select` with fuel: try the five variant parsers in subclass
definition order (Const, Variable, Function, Repeat, Cond); first success
wins; if all five fail, aggregate all five rejection reasons. -/
def selectF : Nat → Val → Except PErr Node
  | 0, _ => .error .fuel
  | f + 1, obj =>
    match parseConstCore obj with
    | .ok n => .ok n
    | .error e1 =>
      match parseVariableCore obj with
      | .ok n => .ok n
      | .error e2 =>
        match parseFunctionCore (selectF f) obj with
        | .ok n => .ok n
        | .error e3 =>
          match parseRepeatCore (selectF f) (ptluCore (selectF f)) obj with
          | .ok n => .ok n
          | .error e4 =>
            match parseCondCore (selectF f) (ptluCore (selectF f)) obj with
            | .ok n => .ok n
            | .error e5 => .error (.selectFailed [e1, e2, e3, e4, e5])

/-- Executable structural size of a `Val`, used as the fuel for
`Node.select` (the derived `sizeOf` of the nested inductive is not
executable). -/
def Val.size : Val → Nat
  | .null => 1
  | .bool _ => 1
  | .int _ => 1
  | .float _ => 1
  | .str _ => 1
  | .list xs => 1 + (xs.attach.map (fun x => Val.size x.1)).sum
  | .map kvs => 1 + (kvs.attach.map (fun kv => Val.size kv.1.2)).sum
termination_by v => sizeOf v
decreasing_by
  · have := List.sizeOf_lt_of_mem x.2
    simp only [Val.list.sizeOf_spec]
    omega
  · rcases kv with ⟨⟨k, v⟩, hm⟩
    have h := List.sizeOf_lt_of_mem hm
    simp only [Val.map.sizeOf_spec, Prod.mk.sizeOf_spec] at h ⊢
    omega

/-- `Node.select`. -/
def Node.select (obj : Val) : Except PErr Node := selectF (Val.size obj) obj

/-- `parse_top_level_union` at the top level. -/
def parse_top_level_union (obj : Val) : Except PErr TopLevelUnion :=
  ptluCore Node.select obj

/-- `Const.parse`. -/
def Const.parse (obj : Val) : Except PErr Node := parseConstCore obj

/-- `Variable.parse`. -/
def Variable.parse (obj : Val) : Except PErr Node := parseVariableCore obj

/-- `Function.parse`. -/
def Function.parse (obj : Val) : Except PErr Node := parseFunctionCore Node.select obj

/-- `Repeat.parse`. -/
def Repeat.parse (obj : Val) : Except PErr Node :=
  parseRepeatCore Node.select parse_top_level_union obj

/-- `Cond.parse`. -/
def Cond.parse (obj : Val) : Except PErr Node :=
  parseCondCore Node.select parse_top_level_union obj

/-- A raw value has a valid `type` discriminator: it is a dict whose `"type"`
entry is one of the five variant names. -/
def hasValidType (obj : Val) : Bool :=
  match obj with
  | .map kvs =>
    match pyGet kvs "type" with
    | .str s => ["const", "variable", "function", "repeat", "cond"].contains s
    | _ => false
  | _ => false

/-! ### Pipeline (`cli.py`, `Argument.run`) -/

/-- `Argument.run` after parsing: evaluate every top-level key's node, then
prune with the Vanisher (`Vanisher.run({k: evaluator.eval(v), ...})`). -/
def runSchema (env : Environment) (schema : List (String × Node)) : Except EvalErr Val :=
  match evalEntries env schema with
  | .error e => .error e
  | .ok ws => .ok (Vanisher.run (.map ws))

/-! ### Preprocessor (`preprocessor.py`) -/

/-- `Template`: a string like `{{tag|p1|p2}}`. -/
structure Template where
  value : String

/-- Python `str.lstrip("{{")`: strip every leading character drawn from the
set `{'{'}`. -/
def pyLStripChar (c : Char) (s : List Char) : List Char := s.dropWhile (· == c)

/-- Python `str.rstrip("}}")`: strip every trailing `'}'`. -/
def pyRStripChar (c : Char) (s : List Char) : List Char :=
  (s.reverse.dropWhile (· == c)).reverse

/-- Python `str.lstrip().rstrip()`: strip whitespace on both ends. -/
def pyStripWs (s : List Char) : List Char :=
  ((s.dropWhile Char.isWhitespace).reverse.dropWhile Char.isWhitespace).reverse

/-- `Template.new` on an arbitrary object: only a string wrapped in `{{`/`}}`
yields a template (anything else raises, caught as `InvalidTemplateError` ↦
`none`; a non-string raises `AttributeError` inside the `try`, same outcome).
`startswith`/`endswith` are checked on the character list directly. -/
def templateNew : Val → Option Template
  | .str s =>
    match s.data, s.data.reverse with
    | '{' :: '{' :: _, '}' :: '}' :: _ =>
      some ⟨String.mk (pyStripWs (pyRStripChar '}' (pyLStripChar '{' s.data)))⟩
    | _, _ => none
  | _ => none

/-- Python `str.split("|")`: split at every `|`, keeping empty pieces
(so the result is never empty). -/
def splitPipe : List Char → List (List Char)
  | [] => [[]]
  | c :: rest =>
    let r := splitPipe rest
    if c == '|' then [] :: r
    else
      match r with
      | h :: t => (c :: h) :: t
      | [] => [[c]]

/-- `Template.tag`: the part before the first `|` (`split("|", maxsplit=1)[0]`). -/
def Template.tag (t : Template) : String :=
  String.mk ((splitPipe t.value.data).headD [])

/-- `Template.body`: the `|`-separated parts after the tag (`split("|")[1:]`). -/
def Template.body (t : Template) : List String :=
  ((splitPipe t.value.data).tail).map String.mk

/-- Python `int(s)` on a string: strip whitespace, optional sign, decimal
digits (digit-group underscores are not modelled; no claim uses them). -/
def pyParseInt (s : String) : Option Int :=
  let cs := pyStripWs s.data
  let signAndDigits : Int × List Char :=
    match cs with
    | '+' :: rest => (1, rest)
    | '-' :: rest => (-1, rest)
    | rest => (1, rest)
  let sign := signAndDigits.1
  let digits := signAndDigits.2
  if !digits.isEmpty && digits.all Char.isDigit then
    some (sign * (digits.foldl (fun acc c => acc * 10 + (c.toNat - '0'.toNat)) 0 : Nat))
  else none

/-- Python `float(s)` on a string: optional sign, digits with an optional
fractional part (exponents, `inf`/`nan` are not modelled; no claim uses
floats beyond tagging). -/
def pyParseFloat (s : String) : Option Rat :=
  let cs := pyStripWs s.data
  let signAndRest : Rat × List Char :=
    match cs with
    | '+' :: rest => (1, rest)
    | '-' :: rest => (-1, rest)
    | rest => (1, rest)
  let intPart := signAndRest.2.takeWhile Char.isDigit
  let rest := signAndRest.2.dropWhile Char.isDigit
  let digitsVal (l : List Char) : Nat :=
    l.foldl (fun acc c => acc * 10 + (c.toNat - '0'.toNat)) 0
  match rest with
  | [] =>
    if intPart.isEmpty then none
    else some (signAndRest.1 * (digitsVal intPart : Rat))
  | '.' :: frac =>
    if frac.all Char.isDigit && !(intPart.isEmpty && frac.isEmpty) then
      some (signAndRest.1 *
        ((digitsVal intPart : Rat) + (digitsVal frac : Rat) / ((10 : Rat) ^ frac.length)))
    else none
  | _ => none

/-- `Builtin.cast(val, typ)` (`function.py`) restricted to a string `val`,
the only way the preprocessor invokes it.  `str`, `int`, `float`, `bool`
follow Python; the container conversions (`list`, `tuple`, `set`, `dict`),
which go through `json.loads` or char-tuples and are exercised by no claim,
are modelled as failures. -/
def castStr (val : String) (typ : String) : Except String Val :=
  match typ with
  | "str" => .ok (.str val)
  | "int" =>
    match pyParseInt val with
    | some n => .ok (.int n)
    | none => .error "invalid literal for int"
  | "float" =>
    match pyParseFloat val with
    | some q => .ok (.float q)
    | none => .error "could not convert string to float"
  | "bool" => .ok (.bool (val != ""))
  | _ => .error "cannot cast"

/-- `Preprocessor.__process_str`: expand `{{const|v}}`, `{{const|v|t}}` and
`{{variable|n}}` macro tokens; leave everything else (including a token whose
cast fails) unchanged. -/
def Preprocessor.processStr (value : String) : Val :=
  match templateNew (.str value) with
  | none => .str value
  | some t =>
    match t.tag, t.body with
    | "const", [val] => .map [("type", .str "const"), ("value", .str val)]
    | "const", [val, typ] =>
      match castStr val typ with
      | .ok v => .map [("type", .str "const"), ("value", v)]
      | .error _ => .str value
    | "variable", [name] => .map [("type", .str "variable"), ("name", .str name)]
    | _, _ => .str value

mutual
/-- `Preprocessor.process`: dispatch on the runtime type; non-container
non-string values pass through. -/
def Preprocessor.process : Val → Val
  | .str s => Preprocessor.processStr s
  | .list xs => Preprocessor.processList xs
  | .map kvs => .map (Preprocessor.processEntries kvs)
  | v => v
termination_by v => (sizeOf v, 0)

/-- `Preprocessor.__process_list`: a list headed by a macro token drives
list-level expansion (`cond` / `function` / `repeat`); any other shape is
processed element-wise (`shift`). -/
def Preprocessor.processList : List Val → Val
  | [] => .list []
  | head :: tail =>
    match templateNew head with
    | none => .list (Preprocessor.processAll (head :: tail))
    | some t =>
      match t.tag, t.body with
      | "cond", [] =>
        match Preprocessor.processArms tail with
        | some arms => .map [("type", .str "cond"), ("body", .list arms)]
        | none => .list (Preprocessor.processAll (head :: tail))
      | "function", [name] =>
        if tail.isEmpty then .map [("type", .str "function"), ("name", .str name)]
        else
          .map [("type", .str "function"), ("name", .str name),
                ("args", .list (Preprocessor.processAll tail))]
      | "repeat", [] =>
        match tail with
        | [amount, node] =>
          .map [("type", .str "repeat"), ("amount", Preprocessor.process amount),
                ("node", Preprocessor.process node)]
        | other => .list (Preprocessor.processAll (head :: other))
      | _, _ => .list (Preprocessor.processAll (head :: tail))
termination_by xs => (sizeOf xs, 1)

/-- The `shift` comprehension `[self.process(x) for x in value]`. -/
def Preprocessor.processAll : List Val → List Val
  | [] => []
  | x :: xs => Preprocessor.process x :: Preprocessor.processAll xs
termination_by xs => (sizeOf xs, 0)

/-- The cond-macro comprehension `[[process(t), process(e)] for t, e in tail]`:
`none` models the unpacking failure for a non-pair element, which makes the
whole expansion fall back to `shift`.  (Python would also unpack any other
length-2 sequence, e.g. a 2-character string; no claim exercises that corner.) -/
def Preprocessor.processArms : List Val → Option (List Val)
  | [] => some []
  | .list [x, y] :: rest =>
    match Preprocessor.processArms rest with
    | some arms => some (.list [Preprocessor.process x, Preprocessor.process y] :: arms)
    | none => none
  | _ => none
termination_by xs => (sizeOf xs, 0)

/-- The dict comprehension `{k: self.process(v) for k, v in node.items()}`. -/
def Preprocessor.processEntries : List (String × Val) → List (String × Val)
  | [] => []
  | (k, v) :: rest => (k, Preprocessor.process v) :: Preprocessor.processEntries rest
termination_by kvs => (sizeOf kvs, 0)
end

/-! ### Custom-function scoping (`function.py`: `SymTable`, `Function`) -/

/-- The ambient global namespace, name → object. -/
abbrev GTable := List (String × Val)

/-- Python dict assignment `d[k] = v`: overwrite in place, else append. -/
def gtSet : GTable → String → Val → GTable
  | [], k, v => [(k, v)]
  | (k', v') :: rest, k, v =>
    if k' == k then (k, v) :: rest else (k', v') :: gtSet rest k v

/-- Python `del d[k]`. -/
def gtDel (g : GTable) (k : String) : GTable :=
  g.filter (fun kv => kv.1 != k)

structure SymTable where
  table : List (String × Val)

/-- A compiled callable as seen through its invocation: it may read and
mutate the ambient global namespace and returns a value or raises. -/
abbrev PyCall := GTable → (Except String Val) × GTable

/-- `SymTable.apply` wrapped around a call (`Function.__call__` runs
`with self.symtable.apply(): return self.func(...)`).

The generator-based context manager has no `try`/`finally` around its
`yield`: when the call raises, the post-`yield` code never runs, so the
symbol table is not refreshed and the keys added for this call stay in the
globals (the error branch below).  On success, every table symbol is read
back from the globals and the added keys are deleted.  (`globals()[k]` would
raise `KeyError` had the call deleted a table symbol; no modelled callable
deletes globals, so the stale-value default of `getD` is never reached.) -/
def SymTable.applyCall (st : SymTable) (g : GTable) (call : PyCall) :
    (Except String Val) × GTable × SymTable :=
  if st.table.any (fun kv => pyHasKey g kv.1) then
    (.error "cannot update global symtable keys", g, st)
  else
    let addedKeys := (st.table.map Prod.fst).filter (fun k => !(pyHasKey g k))
    let g1 := st.table.foldl (fun acc kv => gtSet acc kv.1 kv.2) g
    match call g1 with
    | (.ok v, g2) =>
      let st' : SymTable := ⟨st.table.map (fun kv => (kv.1, (pyGetStrict g2 kv.1).getD kv.2))⟩
      let g3 := addedKeys.foldl (fun acc k => gtDel acc k) g2
      (.ok v, g3, st')
    | (.error e, g2) => (.error e, g2, st)

/-- `Function` (`function.py`): a compiled callable with its shared symbol
table; `__call__` applies the table around the underlying call. -/
structure Function where
  func : PyCall
  symtable : SymTable
  code : String

def Function.call (f : Function) (g : GTable) : (Except String Val) × GTable × SymTable :=
  f.symtable.applyCall g f.func

/-- A callable that raises, leaving the globals as they were at call time. -/
def failingCall : PyCall := fun g => (.error "boom", g)

/-- A callable that returns `null` without touching the globals. -/
def okCall : PyCall := fun g => (.ok .null, g)

/-- An empty environment, for concrete instantiations. -/
def env0 : Environment := ⟨⟨[]⟩, ⟨[]⟩⟩

/-- A concrete non-idempotence input for the Vanisher: a one-entry-away-from-
marker map that collapses to the marker once its `"x"` entry is pruned. -/
def nearMark : Val :=
  .list [.map [("type", .str "randomjson.control.vanish"), ("x", Vanisher.mark)]]

/-! ## Supporting lemmas -/

/-- `Val.size` is positive. -/
theorem Val.size_pos (v : Val) : 0 < Val.size v := by
  cases v <;> simp [Val.size]

mutual
/-- A value free of droppable markers is a `Vanisher.run` fixed point. -/
theorem Vanisher.run_of_noMark : ∀ v, noMark v = true → Vanisher.run v = v
  | .null, _ => by simp [Vanisher.run]
  | .bool _, _ => by simp [Vanisher.run]
  | .int _, _ => by simp [Vanisher.run]
  | .float _, _ => by simp [Vanisher.run]
  | .str _, _ => by simp [Vanisher.run]
  | .list xs, h => by
    simp only [noMark] at h
    simp [Vanisher.run, Vanisher.runList_of_noMark xs h]
  | .map kvs, h => by
    simp only [noMark] at h
    simp [Vanisher.run, Vanisher.runEntries_of_noMark kvs h]
termination_by v => sizeOf v

theorem Vanisher.runList_of_noMark : ∀ xs, noMarkList xs = true → Vanisher.runList xs = xs
  | [], _ => by simp [Vanisher.runList]
  | x :: xs, h => by
    simp only [noMarkList, Bool.and_eq_true, Bool.not_eq_true'] at h
    obtain ⟨⟨h1, h2⟩, h3⟩ := h
    simp [Vanisher.runList, h1, Vanisher.run_of_noMark x h2, Vanisher.runList_of_noMark xs h3]
termination_by xs => sizeOf xs

theorem Vanisher.runEntries_of_noMark :
    ∀ kvs, noMarkEntries kvs = true → Vanisher.runEntries kvs = kvs
  | [], _ => by simp [Vanisher.runEntries]
  | (k, v) :: rest, h => by
    simp only [noMarkEntries, Bool.and_eq_true, Bool.not_eq_true'] at h
    obtain ⟨⟨h1, h2⟩, h3⟩ := h
    simp [Vanisher.runEntries, h1, Vanisher.run_of_noMark v h2,
      Vanisher.runEntries_of_noMark rest h3]
termination_by kvs => sizeOf kvs
end

/-! ## Claim C3 -/

/-- C3 counterexample: `Vanisher.run` is not idempotent.  On
`[{"type": "randomjson.control.vanish", "x": mark}]` the first pass keeps the
outer map (it is not equal to the marker) but prunes its `"x"` entry, leaving
exactly the marker; a second pass then removes it. -/
theorem c3_vanisher_idempotent_counterexample :
    Vanisher.run nearMark = Val.list [Vanisher.mark] ∧
    Vanisher.run (Vanisher.run nearMark) = Val.list [] ∧
    Vanisher.run (Vanisher.run nearMark) ≠ Vanisher.run nearMark := by
  refine ⟨?_, ?_, ?_⟩
  · simp [nearMark, Vanisher.run, Vanisher.runList, Vanisher.runEntries, isMark, Vanisher.mark]
  · simp [nearMark, Vanisher.run, Vanisher.runList, Vanisher.runEntries, isMark, Vanisher.mark]
  · intro h
    simp [nearMark, Vanisher.run, Vanisher.runList, Vanisher.runEntries, isMark,
      Vanisher.mark] at h

/-- C3 (amended): applying the Vanisher twice gives the same result as
applying it once for every value whose single pass leaves no marker in a
droppable position (no list element and no map value of the result equals
the Absent marker).  In general a map that prunes down to exactly the
marker survives the first pass and is removed by the second. -/
theorem c3_vanisher_idempotent_on_marker_free (x : Val)
    (h : noMark (Vanisher.run x) = true) :
    Vanisher.run (Vanisher.run x) = Vanisher.run x :=
  Vanisher.run_of_noMark _ h

/-- C3 witness: the amended idempotence applied at `[mark, 1]`. -/
theorem c3_vanisher_idempotent_witness :
    noMark (Vanisher.run (Val.list [Vanisher.mark, Val.int 1])) = true ∧
    Vanisher.run (Vanisher.run (Val.list [Vanisher.mark, Val.int 1])) =
      Vanisher.run (Val.list [Vanisher.mark, Val.int 1]) :=
  ⟨by simp [Vanisher.run, Vanisher.runList, noMark, noMarkList, isMark, Vanisher.mark],
   c3_vanisher_idempotent_on_marker_free _
     (by simp [Vanisher.run, Vanisher.runList, noMark, noMarkList, isMark, Vanisher.mark])⟩

/-! ## Claim C10 -/

/-- C10: a value structurally equal to the marker map
`{"type": "randomjson.control.vanish"}` is emitted verbatim by `Const`
evaluation as ordinary document data, and the Vanisher drops it from any
list and any map position, so it never appears in the pruned output; in
particular a one-key top-level schema holding such a `Const` prunes to the
empty map. -/
theorem c10_vanisher_removes_marker_data (env : Environment) (k : String) (v : Val)
    (hv : isMark v = true) (ws : List (String × Val)) (l : List Val) :
    eval env (.Const v) = .ok v ∧
    Vanisher.run (.list (v :: l)) = Vanisher.run (.list l) ∧
    Vanisher.run (.map ((k, v) :: ws)) = Vanisher.run (.map ws) ∧
    runSchema env [(k, Node.Const v)] = .ok (.map []) := by
  refine ⟨?_, ?_, ?_, ?_⟩
  · simp [eval, wrapEval]
  · simp [Vanisher.run, Vanisher.runList, hv]
  · simp [Vanisher.run, Vanisher.runEntries, hv]
  · simp [runSchema, evalEntries, eval, wrapEval, Vanisher.run, Vanisher.runEntries, hv]

/-- C10 witness: the marker itself, stored under key `"a"`. -/
theorem c10_vanisher_removes_marker_data_witness :
    isMark Vanisher.mark = true ∧
    runSchema env0 [("a", Node.Const Vanisher.mark)] = .ok (.map []) :=
  ⟨by simp [isMark, Vanisher.mark],
   (c10_vanisher_removes_marker_data env0 "a" Vanisher.mark
     (by simp [isMark, Vanisher.mark]) [] []).2.2.2⟩

/-- Arm loop of `__eval_cond` when every arm's test evaluates to a falsy
value: no arm is selected, the marker is returned. -/
theorem evalCond_of_all_falsy (env : Environment) :
    ∀ (body : List (Node × TopLevelUnion)) (i : Nat),
      (∀ arm ∈ body, ∃ v, eval env arm.1 = .ok v ∧ truthy v = false) →
      evalCond env i body = .ok Vanisher.mark := by
  intro body
  induction body with
  | nil => intro i _; simp [evalCond]
  | cons arm rest ih =>
    intro i h
    obtain ⟨v, hv, htr⟩ := h arm (by simp)
    rcases arm with ⟨t, b⟩
    simp only at hv
    simp [evalCond, hv, htr, ih (i + 1) (fun a ha => h a (by simp [ha]))]

/-! ## Claim C4 -/

/-- C4: a `Cond` whose first arm's test evaluates to a truthy value returns
that arm's body, whatever the later arms are (they are never evaluated):
arm tests run in document order and evaluation stops at the first truthy
test. -/
theorem c4_cond_returns_first_truthy_arm (env : Environment) (t : Node)
    (b : TopLevelUnion) (rest : List (Node × TopLevelUnion)) (v w : Val)
    (ht : eval env t = .ok v) (htr : truthy v = true)
    (hb : evalTop env b = .ok w) :
    eval env (.Cond ((t, b) :: rest)) = .ok w := by
  simp [eval, evalCond, ht, htr, hb, wrapEval]

/-- C4 witness: two truthy arms; the second arm (whose test would fail to
evaluate at all) is never reached and the first arm's body is returned. -/
theorem c4_cond_returns_first_truthy_arm_witness :
    eval env0 (.Const (.bool true)) = .ok (.bool true) ∧
    truthy (.bool true) = true ∧
    evalTop env0 (.node (.Const (.int 1))) = .ok (.int 1) ∧
    eval env0 (.Cond [(.Const (.bool true), .node (.Const (.int 1))),
                      (.Variable "missing", .node (.Const (.int 2)))]) = .ok (.int 1) :=
  ⟨by simp [eval, wrapEval], rfl, by simp [evalTop, eval, wrapEval],
   c4_cond_returns_first_truthy_arm env0 (.Const (.bool true)) (.node (.Const (.int 1)))
     [(.Variable "missing", .node (.Const (.int 2)))] (.bool true) (.int 1)
     (by simp [eval, wrapEval]) rfl (by simp [evalTop, eval, wrapEval])⟩

/-! ## Claim C5 -/

/-- C5: a `Cond` with zero arms, or one where every arm's test evaluates to
a falsy value, succeeds with the Absent marker; as the value of a top-level
map key, the Vanisher then removes that key from the final output. -/
theorem c5_cond_no_match_is_absent (env : Environment) (k : String)
    (body : List (Node × TopLevelUnion))
    (h : ∀ arm ∈ body, ∃ v, eval env arm.1 = .ok v ∧ truthy v = false) :
    eval env (.Cond []) = .ok Vanisher.mark ∧
    eval env (.Cond body) = .ok Vanisher.mark ∧
    runSchema env [(k, .Cond [])] = .ok (.map []) ∧
    runSchema env [(k, .Cond body)] = .ok (.map []) := by
  have h0 : evalCond env 0 body = .ok Vanisher.mark := evalCond_of_all_falsy env body 0 h
  refine ⟨by simp [eval, evalCond, wrapEval], by simp [eval, h0, wrapEval], ?_, ?_⟩
  · simp [runSchema, evalEntries, eval, evalCond, wrapEval, Vanisher.run,
      Vanisher.runEntries, isMark, Vanisher.mark]
  · simp [runSchema, evalEntries, eval, h0, wrapEval, Vanisher.run,
      Vanisher.runEntries, isMark, Vanisher.mark]

/-- C5 witness: one all-falsy arm under key `"a"`. -/
theorem c5_cond_no_match_is_absent_witness :
    eval env0 (.Cond [(.Const (.bool false), .node (.Const (.int 1)))]) =
      .ok Vanisher.mark ∧
    runSchema env0 [("a", .Cond [(.Const (.bool false), .node (.Const (.int 1)))])] =
      .ok (.map []) := by
  have h := c5_cond_no_match_is_absent env0 "a"
    [(.Const (.bool false), .node (.Const (.int 1)))]
    (by
      intro arm ha
      simp only [List.mem_singleton] at ha
      subst ha
      exact ⟨.bool false, by simp [eval, wrapEval], rfl⟩)
  exact ⟨h.2.1, h.2.2.2⟩

/-! ## Claim C8 -/

/-- C8: a `Repeat` whose amount evaluates to a non-positive integer returns
the empty list, whatever the template is. -/
theorem c8_repeat_nonpositive_amount_empty (env : Environment)
    (tl : TopLevelUnion) (amt : Node) (n : Int)
    (h : eval env amt = .ok (.int n)) (hn : n ≤ 0) :
    eval env (.Repeat tl amt) = .ok (.list []) := by
  simp [eval, h, isinstanceInt, pyIntValue, Int.toNat_of_nonpos hn, evalRepeat, wrapEval]

/-- C8 witness: amount `-2` with a template that would evaluate fine. -/
theorem c8_repeat_nonpositive_amount_empty_witness :
    eval env0 (.Const (.int (-2))) = .ok (.int (-2)) ∧
    eval env0 (.Repeat (.node (.Const (.int 100))) (.Const (.int (-2)))) = .ok (.list []) :=
  ⟨by simp [eval, wrapEval],
   c8_repeat_nonpositive_amount_empty env0 (.node (.Const (.int 100)))
     (.Const (.int (-2))) (-2) (by simp [eval, wrapEval]) (by omega)⟩

/-! ## Claim C9 -/

/-- C9: `Variable` lookup succeeds exactly when the name has a binding in
the `VariableTable` — a binding to `null` is found and returns `null`; the
variable-not-found failure occurs exactly when there is no binding at all. -/
theorem c9_variable_null_binding_found (n : String) (t : List (String × Val))
    (ft : FunctionTable) :
    (pyHasKey t n = true →
      eval ⟨⟨t⟩, ft⟩ (.Variable n) = .ok (pyGet t n)) ∧
    (pyHasKey t n = false →
      eval ⟨⟨t⟩, ft⟩ (.Variable n) = .error (.evalError (.nodeWrap (.varNotFound n)))) ∧
    (∀ rest, eval ⟨⟨(n, Val.null) :: rest⟩, ft⟩ (.Variable n) = .ok Val.null) := by
  refine ⟨fun h => ?_, fun h => ?_, fun rest => ?_⟩
  · simp [eval, VariableTable.has, VariableTable.get, h, wrapEval]
  · simp [eval, VariableTable.has, h, wrapEval]
  · simp [eval, VariableTable.has, VariableTable.get, pyHasKey, pyGet, wrapEval]

/-- C9 witness: `x` bound to `null` is found (and yields `null`); unbound
`x` is a not-found failure. -/
theorem c9_variable_null_binding_found_witness :
    eval ⟨⟨[("x", Val.null)]⟩, ⟨[]⟩⟩ (.Variable "x") = .ok Val.null ∧
    eval ⟨⟨[]⟩, ⟨[]⟩⟩ (.Variable "x") =
      .error (.evalError (.nodeWrap (.varNotFound "x"))) :=
  ⟨(c9_variable_null_binding_found "x" [("x", Val.null)] ⟨[]⟩).2.2 [],
   (c9_variable_null_binding_found "x" [] ⟨[]⟩).2.1 rfl⟩

/-! ## Claim C2 -/

/-- C2 counterexample: a `Repeat` whose amount evaluates to the boolean
`True` does NOT fail: Python's `isinstance(count, int)` accepts booleans
(`bool` subclasses `int`), so the node evaluates to a one-element list. -/
theorem c2_repeat_bool_amount_counterexample :
    eval env0 (.Repeat (.node (.Const (.int 100))) (.Const (.bool true))) =
      .ok (.list [.int 100]) ∧
    ¬∃ e, eval env0 (.Repeat (.node (.Const (.int 100))) (.Const (.bool true))) =
      .error e := by
  have h : eval env0 (.Repeat (.node (.Const (.int 100))) (.Const (.bool true))) =
      .ok (.list [.int 100]) := by
    simp [eval, evalRepeat, evalTop, wrapEval, isinstanceInt, pyIntValue]
  exact ⟨h, fun ⟨e, he⟩ => by rw [h] at he; exact Except.noConfusion he⟩

/-- C2 (amended): a `Repeat` whose amount evaluates to a value that is not a
Python `int` — where booleans count as ints, so floats, strings, lists,
maps and null fail but booleans do not — fails with the non-integer-amount
error; a boolean `True` amount is accepted and behaves as amount `1`. -/
theorem c2_repeat_amount_not_int_fails (env : Environment) (tl : TopLevelUnion)
    (amt : Node) (v : Val) (h : eval env amt = .ok v)
    (hi : isinstanceInt v = false) :
    eval env (.Repeat tl amt) = .error (.evalError (.nodeWrap .repeatNotInt)) ∧
    ∀ w, evalTop env tl = .ok w →
      eval env (.Repeat tl (.Const (.bool true))) = .ok (.list [w]) := by
  refine ⟨by simp [eval, h, hi, wrapEval], fun w hw => ?_⟩
  simp [eval, wrapEval, isinstanceInt, pyIntValue, evalRepeat, hw]

/-- C2 witness: a string amount fails; with the same template a `True`
amount yields a one-element list. -/
theorem c2_repeat_amount_not_int_fails_witness :
    eval env0 (.Const (.str "three")) = .ok (.str "three") ∧
    isinstanceInt (.str "three") = false ∧
    eval env0 (.Repeat (.node (.Const (.int 7))) (.Const (.str "three"))) =
      .error (.evalError (.nodeWrap .repeatNotInt)) ∧
    eval env0 (.Repeat (.node (.Const (.int 7))) (.Const (.bool true))) =
      .ok (.list [.int 7]) := by
  have h := c2_repeat_amount_not_int_fails env0 (.node (.Const (.int 7)))
    (.Const (.str "three")) (.str "three") (by simp [eval, wrapEval]) rfl
  exact ⟨by simp [eval, wrapEval], rfl, h.1, h.2 (.int 7) (by simp [evalTop, eval, wrapEval])⟩

/-! ## Claim C1 -/

/-- C1: the invocation protocol does NOT restore the ambient namespace on
the failure exit path.  With symbol table `{c: 0}` and empty ambient
globals, a raising call leaves `c` behind in the globals (the context
manager has no `try`/`finally` around its `yield`), while a successful call
removes it.  The claim's "release happens on every exit path, including
failure" is contradicted by the failure branch. -/
theorem c1_symtable_not_released_on_failure :
    (Function.call ⟨failingCall, ⟨[("c", Val.int 0)]⟩, "c = 0"⟩ []).1 = .error "boom" ∧
    (Function.call ⟨failingCall, ⟨[("c", Val.int 0)]⟩, "c = 0"⟩ []).2.1 =
      [("c", Val.int 0)] ∧
    [("c", Val.int 0)] ≠ ([] : GTable) ∧
    (Function.call ⟨okCall, ⟨[("c", Val.int 0)]⟩, "c = 0"⟩ []).2.1 = ([] : GTable) := by
  refine ⟨rfl, rfl, by simp, rfl⟩

/-- Under an invalid `type` discriminator, `node_type` rejects for every one
of the five variant names. -/
theorem checkType_of_noValidType (obj : Val) (name : String)
    (hv : hasValidType obj = false)
    (hn : ["const", "variable", "function", "repeat", "cond"].contains name = true) :
    checkType name obj = some (.invalidNodeType name) := by
  cases obj with
  | map kvs =>
    simp only [hasValidType] at hv
    simp only [checkType]
    cases htyp : pyGet kvs "type" with
    | str s =>
      rw [htyp] at hv
      have hs : (s == name) = false := by
        cases hsn : s == name
        · rfl
        · exfalso
          have heq : s = name := by simpa using hsn
          subst heq
          simp at hv hn
          rcases hn with hn | hn | hn | hn | hn <;> simp [hn] at hv
      simp [hs]
    | null => rfl
    | bool b => rfl
    | int n => rfl
    | float q => rfl
    | list xs => rfl
    | map kvs => rfl
  | null => rfl
  | bool b => rfl
  | int n => rfl
  | float q => rfl
  | str s => rfl
  | list xs => rfl

/-- Under an invalid discriminator, the decorator chain of every variant
parser rejects: either `node_properties` or `node_type` fails. -/
theorem runChecks_fails_of_noValidType (obj : Val) (keys : List String)
    (name : String) (hv : hasValidType obj = false)
    (hn : ["const", "variable", "function", "repeat", "cond"].contains name = true) :
    ∃ e, runChecks keys name obj = some e := by
  simp only [runChecks]
  cases hc : checkProperties keys obj with
  | some e => exact ⟨e, rfl⟩
  | none => exact ⟨_, checkType_of_noValidType obj name hv hn⟩

/-- A failed check makes `Const.parse`'s body fail, wrapped in `ParseError`. -/
theorem parseConstCore_error {obj : Val} {e : PErr}
    (h : runChecks ["value"] "const" obj = some e) :
    parseConstCore obj = .error (.parseErr e) := by
  simp [parseConstCore, h, Except.mapError]

/-- A failed check makes `Variable.parse`'s body fail. -/
theorem parseVariableCore_error {obj : Val} {e : PErr}
    (h : runChecks ["name"] "variable" obj = some e) :
    parseVariableCore obj = .error (.parseErr e) := by
  simp [parseVariableCore, h, Except.mapError]

/-- A failed check makes `Function.parse`'s body fail, for any child parser. -/
theorem parseFunctionCore_error {obj : Val} {e : PErr}
    (h : runChecks ["name"] "function" obj = some e)
    (sel : Val → Except PErr Node) :
    parseFunctionCore sel obj = .error (.parseErr e) := by
  simp [parseFunctionCore, h, Except.mapError]

/-- A failed check makes `Repeat.parse`'s body fail, for any child parsers. -/
theorem parseRepeatCore_error {obj : Val} {e : PErr}
    (h : runChecks ["node", "amount"] "repeat" obj = some e)
    (sel : Val → Except PErr Node) (ptlu : Val → Except PErr TopLevelUnion) :
    parseRepeatCore sel ptlu obj = .error (.parseErr e) := by
  simp [parseRepeatCore, h, Except.mapError]

/-- A failed check makes `Cond.parse`'s body fail, for any child parsers. -/
theorem parseCondCore_error {obj : Val} {e : PErr}
    (h : runChecks ["body"] "cond" obj = some e)
    (sel : Val → Except PErr Node) (ptlu : Val → Except PErr TopLevelUnion) :
    parseCondCore sel ptlu obj = .error (.parseErr e) := by
  simp [parseCondCore, h, Except.mapError]

/-! ## Claim C6 -/

/-- C6: for every raw value lacking a valid `type` discriminator (not a
keyed map, or the `type` entry missing/null, or naming none of the five
variants), every one of the five variant parsers rejects it and
`Node.select` fails with the aggregate of all five rejection reasons. -/
theorem c6_select_fails_without_discriminator (obj : Val)
    (hv : hasValidType obj = false) :
    ∃ e1 e2 e3 e4 e5,
      Const.parse obj = .error e1 ∧
      Variable.parse obj = .error e2 ∧
      Function.parse obj = .error e3 ∧
      Repeat.parse obj = .error e4 ∧
      Cond.parse obj = .error e5 ∧
      Node.select obj = .error (.selectFailed [e1, e2, e3, e4, e5]) := by
  obtain ⟨ec, hec⟩ := runChecks_fails_of_noValidType obj ["value"] "const" hv rfl
  obtain ⟨ev, hev⟩ := runChecks_fails_of_noValidType obj ["name"] "variable" hv rfl
  obtain ⟨ef, hef⟩ := runChecks_fails_of_noValidType obj ["name"] "function" hv rfl
  obtain ⟨er, her⟩ := runChecks_fails_of_noValidType obj ["node", "amount"] "repeat" hv rfl
  obtain ⟨eo, heo⟩ := runChecks_fails_of_noValidType obj ["body"] "cond" hv rfl
  refine ⟨.parseErr ec, .parseErr ev, .parseErr ef, .parseErr er, .parseErr eo,
    parseConstCore_error hec, parseVariableCore_error hev,
    parseFunctionCore_error hef _, parseRepeatCore_error her _ _,
    parseCondCore_error heo _ _, ?_⟩
  obtain ⟨m, hm⟩ : ∃ m, Val.size obj = m + 1 :=
    ⟨Val.size obj - 1, by have := Val.size_pos obj; omega⟩
  rw [Node.select, hm]
  simp [selectF, parseConstCore_error hec, parseVariableCore_error hev,
    parseFunctionCore_error hef, parseRepeatCore_error her, parseCondCore_error heo]

/-- C6 witness: a map whose `type` entry names no variant. -/
theorem c6_select_fails_without_discriminator_witness :
    hasValidType (.map [("type", .str "nope")]) = false ∧
    ∃ e1 e2 e3 e4 e5,
      Const.parse (.map [("type", .str "nope")]) = .error e1 ∧
      Variable.parse (.map [("type", .str "nope")]) = .error e2 ∧
      Function.parse (.map [("type", .str "nope")]) = .error e3 ∧
      Repeat.parse (.map [("type", .str "nope")]) = .error e4 ∧
      Cond.parse (.map [("type", .str "nope")]) = .error e5 ∧
      Node.select (.map [("type", .str "nope")]) =
        .error (.selectFailed [e1, e2, e3, e4, e5]) :=
  ⟨rfl, c6_select_fails_without_discriminator _ rfl⟩

/-! ## Claim C7 -/

/-- C7: preprocessing `["{{repeat}}", "{{const|3|int}}", ["{{function|uuid}}"]]`
yields `{type: repeat, amount: {type: const, value: 3}, node: {type:
function, name: uuid}}` — the cast macro coerces the string `"3"` to the
integer `3`, and the function macro with no trailing elements omits the
`args` field. -/
theorem c7_preprocess_repeat_example :
    Preprocessor.process
      (.list [.str "{{repeat}}", .str "{{const|3|int}}",
              .list [.str "{{function|uuid}}"]]) =
    .map [("type", .str "repeat"),
          ("amount", .map [("type", .str "const"), ("value", .int 3)]),
          ("node", .map [("type", .str "function"), ("name", .str "uuid")])] := by
  have h1 : templateNew (.str "{{repeat}}") = some ⟨"repeat"⟩ := rfl
  have h2 : templateNew (.str "{{function|uuid}}") = some ⟨"function|uuid"⟩ := rfl
  have h3 : Preprocessor.processStr "{{const|3|int}}" =
      .map [("type", .str "const"), ("value", .int 3)] := rfl
  have h4 : Template.tag ⟨"repeat"⟩ = "repeat" := rfl
  have h5 : Template.body ⟨"repeat"⟩ = [] := rfl
  have h6 : Template.tag ⟨"function|uuid"⟩ = "function" := rfl
  have h7 : Template.body ⟨"function|uuid"⟩ = ["uuid"] := rfl
  simp [Preprocessor.process, Preprocessor.processList, Preprocessor.processAll,
    h1, h2, h3, h4, h5, h6, h7]
